import Mathlib

/-!
Verification of the brok-clu decision/execution core against its
natural-language specification.

The Lean definitions below are shallow embeddings of the Python sources:

* `src/l4_state_machine/states.py`, `events.py`, `transitions.py`
  — the closed order-processing state machine;
* `proposal/src/validator.py` — structural validation of ProposalSets;
* `artifact/src/validator.py` — structural validation of Artifacts
  (decision records);
* `artifact/src/builder.py` — the decision engine (`build_artifact`,
  the L-3 envelope gate, the L-4 state-machine gate, serialization);
* `m3/src/gateway.py` — the execution gateway (`execute_if_accepted`);
* `src/artifact_layer/run_context.py`, `seam_provider.py` — the
  exactly-once proposal-acquisition seam;
* `tests/l6/test_l6_run_discovery.py` — the delta-based run-discovery
  reference functions (the `brok-run` locator itself is not in the
  source tree; its outcome classification is modelled from the spec).

Python dicts are embedded as ordered association lists inside a `Json`
inductive; every dict literal keeps the key order of the source.  Machine
integers do not overflow anywhere in this code (all counts are tiny), so
`Int`/`Nat` are used directly.  Functions that cannot raise in Python are
total Lean functions; the exceptions that the sources do raise
(`ExecutionBoundaryViolation`, `SeamSViolation`) are explicit constructors
of the result types.
-/

namespace BrokClu

/-! ## L-4 state machine: `src/l4_state_machine/states.py` -/

/-- Frozen, closed set of order processing states (`OrderState` enum). -/
inductive OrderState where
  | CREATED
  | PAYMENT_PENDING
  | PAYMENT_FAILED
  | PAID
  | FRAUD_REVIEW
  | INVENTORY_RESERVED
  | PICKING
  | PACKED
  | SHIPPED
  | IN_TRANSIT
  | DELIVERED
  | CANCELLED
deriving DecidableEq, Repr, Fintype

/-- `TERMINAL_STATES`: no further transitions allowed. -/
def TERMINAL_STATES : List OrderState :=
  [OrderState.DELIVERED, OrderState.CANCELLED]

/-- `INITIAL_STATE`: fixed initial state for the L-4 demo. -/
def INITIAL_STATE : OrderState := OrderState.CREATED

/-- `DEMO_ORDER_ID`: fixed order ID for the L-4 demo. -/
def DEMO_ORDER_ID : String := "demo-order-1"

/-! ## L-4 state machine: `src/l4_state_machine/events.py` -/

/-- Frozen, closed set of event tokens (`EventToken` enum). -/
inductive EventToken where
  | create_payment
  | payment_succeeded
  | payment_failed
  | retry_payment
  | flag_fraud
  | approve_fraud
  | reject_fraud
  | reserve_inventory
  | start_picking
  | pack_order
  | ship_order
  | mark_in_transit
  | confirm_delivery
  | cancel_order
deriving DecidableEq, Repr, Fintype

/-- String value of each event token (the Python enum values). -/
def EventToken.value : EventToken → String
  | .create_payment => "create_payment"
  | .payment_succeeded => "payment_succeeded"
  | .payment_failed => "payment_failed"
  | .retry_payment => "retry_payment"
  | .flag_fraud => "flag_fraud"
  | .approve_fraud => "approve_fraud"
  | .reject_fraud => "reject_fraud"
  | .reserve_inventory => "reserve_inventory"
  | .start_picking => "start_picking"
  | .pack_order => "pack_order"
  | .ship_order => "ship_order"
  | .mark_in_transit => "mark_in_transit"
  | .confirm_delivery => "confirm_delivery"
  | .cancel_order => "cancel_order"

/-- String value of each order state (the Python enum values). -/
def OrderState.value : OrderState → String
  | .CREATED => "CREATED"
  | .PAYMENT_PENDING => "PAYMENT_PENDING"
  | .PAYMENT_FAILED => "PAYMENT_FAILED"
  | .PAID => "PAID"
  | .FRAUD_REVIEW => "FRAUD_REVIEW"
  | .INVENTORY_RESERVED => "INVENTORY_RESERVED"
  | .PICKING => "PICKING"
  | .PACKED => "PACKED"
  | .SHIPPED => "SHIPPED"
  | .IN_TRANSIT => "IN_TRANSIT"
  | .DELIVERED => "DELIVERED"
  | .CANCELLED => "CANCELLED"

/-- All members of the `EventToken` enum, in declaration order. -/
def allEventTokens : List EventToken :=
  [.create_payment, .payment_succeeded, .payment_failed, .retry_payment,
   .flag_fraud, .approve_fraud, .reject_fraud,
   .reserve_inventory, .start_picking, .pack_order, .ship_order,
   .mark_in_transit, .confirm_delivery, .cancel_order]

/-- `EventToken(event_token_str)` — lookup of an event token by its string
value; `none` models the `ValueError` of the Python enum constructor. -/
def eventTokenOfString (s : String) : Option EventToken :=
  allEventTokens.find? (fun e => e.value = s)

/-- `EVENT_TOKEN_TRANSITIONS`: mapping from event token to its single
`(from_state, to_state)` edge. `cancel_order` is absent from the dict
(handled separately), hence `none`. -/
def EVENT_TOKEN_TRANSITIONS : EventToken → Option (OrderState × OrderState)
  | .create_payment => some (OrderState.CREATED, OrderState.PAYMENT_PENDING)
  | .payment_succeeded => some (OrderState.PAYMENT_PENDING, OrderState.PAID)
  | .payment_failed => some (OrderState.PAYMENT_PENDING, OrderState.PAYMENT_FAILED)
  | .retry_payment => some (OrderState.PAYMENT_FAILED, OrderState.PAYMENT_PENDING)
  | .flag_fraud => some (OrderState.PAID, OrderState.FRAUD_REVIEW)
  | .approve_fraud => some (OrderState.FRAUD_REVIEW, OrderState.INVENTORY_RESERVED)
  | .reject_fraud => some (OrderState.FRAUD_REVIEW, OrderState.CANCELLED)
  | .reserve_inventory => some (OrderState.PAID, OrderState.INVENTORY_RESERVED)
  | .start_picking => some (OrderState.INVENTORY_RESERVED, OrderState.PICKING)
  | .pack_order => some (OrderState.PICKING, OrderState.PACKED)
  | .ship_order => some (OrderState.PACKED, OrderState.SHIPPED)
  | .mark_in_transit => some (OrderState.SHIPPED, OrderState.IN_TRANSIT)
  | .confirm_delivery => some (OrderState.IN_TRANSIT, OrderState.DELIVERED)
  | .cancel_order => none

/-- `CANCELLATION_ALLOWED_FROM`: states from which `cancel_order` is allowed. -/
def CANCELLATION_ALLOWED_FROM : List OrderState :=
  [OrderState.CREATED, OrderState.PAYMENT_PENDING, OrderState.PAID,
   OrderState.INVENTORY_RESERVED]

/-! ## L-4 state machine: `src/l4_state_machine/transitions.py` -/

/-- `ALLOWED_TRANSITIONS`: the frozen `(from_state, to_state)` edge set. -/
def ALLOWED_TRANSITIONS : List (OrderState × OrderState) :=
  [(OrderState.CREATED, OrderState.PAYMENT_PENDING),
   (OrderState.PAYMENT_PENDING, OrderState.PAID),
   (OrderState.PAYMENT_PENDING, OrderState.PAYMENT_FAILED),
   (OrderState.PAYMENT_FAILED, OrderState.PAYMENT_PENDING),
   (OrderState.PAID, OrderState.FRAUD_REVIEW),
   (OrderState.PAID, OrderState.INVENTORY_RESERVED),
   (OrderState.FRAUD_REVIEW, OrderState.INVENTORY_RESERVED),
   (OrderState.FRAUD_REVIEW, OrderState.CANCELLED),
   (OrderState.INVENTORY_RESERVED, OrderState.PICKING),
   (OrderState.PICKING, OrderState.PACKED),
   (OrderState.PACKED, OrderState.SHIPPED),
   (OrderState.SHIPPED, OrderState.IN_TRANSIT),
   (OrderState.IN_TRANSIT, OrderState.DELIVERED),
   (OrderState.CREATED, OrderState.CANCELLED),
   (OrderState.PAYMENT_PENDING, OrderState.CANCELLED),
   (OrderState.PAID, OrderState.CANCELLED),
   (OrderState.INVENTORY_RESERVED, OrderState.CANCELLED)]

/-- `TransitionResult` dataclass: result of a transition attempt. -/
structure TransitionResult where
  valid : Bool
  next_state : Option OrderState
  error_code : Option String
deriving DecidableEq, Repr

/-- `apply_transition(current_state, event_token)`, the pure transition
function.  The two `isinstance` guards of the source always pass here
because the arguments range over the closed enum types, so only the
cancel-order branch and the table lookup remain. -/
def apply_transition (current_state : OrderState) (event_token : EventToken) :
    TransitionResult :=
  if event_token = EventToken.cancel_order then
    if current_state ∈ CANCELLATION_ALLOWED_FROM then
      { valid := true, next_state := some OrderState.CANCELLED, error_code := none }
    else
      { valid := false, next_state := none, error_code := some "ILLEGAL_TRANSITION" }
  else
    match EVENT_TOKEN_TRANSITIONS event_token with
    | none =>
        { valid := false, next_state := none, error_code := some "INVALID_EVENT_TOKEN" }
    | some (expected_from, next_state) =>
        if current_state ≠ expected_from then
          { valid := false, next_state := none, error_code := some "ILLEGAL_TRANSITION" }
        else
          { valid := true, next_state := some next_state, error_code := none }

/-- A `(state, event)` pair is present in the allowed-edge table:
either the event's single edge leaves from `s`, or the event is
`cancel_order` and `s` is among its allowed-from states. -/
def edgeInTable (s : OrderState) (e : EventToken) : Bool :=
  if e = EventToken.cancel_order then
    decide (s ∈ CANCELLATION_ALLOWED_FROM)
  else
    match EVENT_TOKEN_TRANSITIONS e with
    | some (from_state, _) => decide (s = from_state)
    | none => false

/-! ## JSON values

Python dicts/lists/scalars are embedded as a `Json` inductive.  `obj`
keeps the key order of the Python dict literal it embeds; keys are unique
(Python dicts cannot hold duplicate keys). -/

/-- A Python/JSON value. -/
inductive Json where
  | null
  | bool (b : Bool)
  | int (n : Int)
  | str (s : String)
  | arr (elems : List Json)
  | obj (fields : List (String × Json))
deriving Repr

/-- `d.get(k)` on an embedded dict: the first field named `k`. -/
def jGet (fs : List (String × Json)) (k : String) : Option Json :=
  (fs.find? (fun f => f.1 = k)).map (·.2)

/-- `k in d` on an embedded dict. -/
def jHas (fs : List (String × Json)) (k : String) : Bool := (jGet fs k).isSome

/-- `d.keys()` on an embedded dict. -/
def jKeys (fs : List (String × Json)) : List String := fs.map (·.1)

/-- Code-point lexicographic order on char lists (Python string `<=`). -/
def pyCharListLe : List Char → List Char → Bool
  | [], _ => true
  | _ :: _, [] => false
  | a :: as, b :: bs =>
      if a.toNat < b.toNat then true
      else if b.toNat < a.toNat then false
      else pyCharListLe as bs

/-- Python string `<=` (code-point lexicographic). -/
def pyStrLe (a b : String) : Bool := pyCharListLe a.data b.data

/-- Stable insertion into a sorted list. -/
def insertSortedBy (le : α → α → Bool) (x : α) : List α → List α
  | [] => [x]
  | y :: ys => if le x y then x :: y :: ys else y :: insertSortedBy le x ys

/-- Stable insertion sort, embedding Python `sorted`. -/
def sortBy (le : α → α → Bool) : List α → List α
  | [] => []
  | x :: xs => insertSortedBy le x (sortBy le xs)

/-- Keep one copy of each string (embeds the `set(...)` constructions,
whose members are subsequently sorted, so order does not matter). -/
def dedupStr : List String → List String
  | [] => []
  | k :: ks => if ks.contains k then dedupStr ks else k :: dedupStr ks

/-- `sorted(set(keys) - set(allowed))`, as used for the
unexpected-field diagnostics of both validators. -/
def extraSorted (keys allowed : List String) : List String :=
  sortBy pyStrLe (dedupStr (keys.filter (fun k => !allowed.contains k)))

/-- Python set equality on string key sets
(`set(a) != set(b)` is `!pySetEqStr a b`). -/
def pySetEqStr (a b : List String) : Bool :=
  sortBy pyStrLe (dedupStr a) = sortBy pyStrLe (dedupStr b)

/-- Field ordering by key, for `json.dumps(..., sort_keys=True)`. -/
def keyLe (a b : String × Json) : Bool := pyStrLe a.1 b.1

/- Recursively sort every object's fields by key.  Composing this with
the plain serializer below embeds `sort_keys=True`, which in CPython
sorts each dict's items as serialization reaches it. -/
mutual
/-- Sort every object's fields by key, recursively. -/
def Json.sortKeys : Json → Json
  | .null => .null
  | .bool b => .bool b
  | .int n => .int n
  | .str s => .str s
  | .arr xs => .arr (Json.sortKeysList xs)
  | .obj fs => .obj (sortBy keyLe (Json.sortKeysFields fs))

def Json.sortKeysList : List Json → List Json
  | [] => []
  | x :: xs => x.sortKeys :: Json.sortKeysList xs

def Json.sortKeysFields : List (String × Json) → List (String × Json)
  | [] => []
  | (k, v) :: fs => (k, v.sortKeys) :: Json.sortKeysFields fs
end

mutual
/-- Structural (order-sensitive) equality test on `Json`. -/
def Json.beq : Json → Json → Bool
  | .null, .null => true
  | .bool a, .bool b => a == b
  | .int a, .int b => a == b
  | .str a, .str b => a == b
  | .arr a, .arr b => Json.beqList a b
  | .obj a, .obj b => Json.beqFields a b
  | _, _ => false

def Json.beqList : List Json → List Json → Bool
  | [], [] => true
  | x :: xs, y :: ys => Json.beq x y && Json.beqList xs ys
  | _, _ => false

def Json.beqFields : List (String × Json) → List (String × Json) → Bool
  | [], [] => true
  | (k, v) :: fs, (l, w) :: gs => k == l && Json.beq v w && Json.beqFields fs gs
  | _, _ => false
end

/-- Python `==` on embedded values: dicts compare by key set and
per-key values (order-insensitive), which for unique-key dicts is
structural equality after recursively sorting keys.  (Python's
cross-type `True == 1` conflation is not modelled; no compared value
mixes booleans with integers anywhere in this code.) -/
def pyEq (a b : Json) : Bool := Json.beq a.sortKeys b.sortKeys

/-! ## Serialization: `json.dumps(..., sort_keys=True, indent=2)`
(`artifact/src/builder.py` `artifact_to_json`, and the gateway's
`execution.meta.json` writer). -/

/-- Lowercase hex digit. -/
def hexDigit (n : Nat) : Char :=
  if n < 10 then Char.ofNat (48 + n) else Char.ofNat (87 + n)

/-- Four-digit lowercase hex, for `\uXXXX` escapes. -/
def hex4 (n : Nat) : String :=
  String.mk [hexDigit (n / 4096 % 16), hexDigit (n / 256 % 16),
             hexDigit (n / 16 % 16), hexDigit (n % 16)]

/-- Escape of one character inside a JSON string literal
(`ensure_ascii=True`, the `json.dumps` default). -/
def pyJsonEscapeChar (c : Char) : String :=
  if c = '"' then "\\\""
  else if c = '\\' then "\\\\"
  else if c = '\n' then "\\n"
  else if c = '\t' then "\\t"
  else if c = '\r' then "\\r"
  else if c = Char.ofNat 8 then "\\b"
  else if c = Char.ofNat 12 then "\\f"
  else if c.toNat < 32 ∨ c.toNat > 126 then
    if c.toNat < 65536 then "\\u" ++ hex4 c.toNat
    else  -- non-BMP characters become a UTF-16 surrogate pair
      let v := c.toNat - 65536
      "\\u" ++ hex4 (55296 + v / 1024) ++ "\\u" ++ hex4 (56320 + v % 1024)
  else String.singleton c

/-- A JSON string literal. -/
def pyQuote (s : String) : String :=
  "\"" ++ String.join (s.data.map pyJsonEscapeChar) ++ "\""

/-- `indent * level` for `indent=2`. -/
def indentStr (n : Nat) : String := String.join (List.replicate n "  ")

mutual
/-- The body of `json.dumps(j, indent=2)` at an indent level (separators
are the defaults used when `indent` is not `None`).  Keys serialize in
field order; `sort_keys=True` is obtained by composing with
`Json.sortKeys`. -/
def pyDumps (ind : Nat) : Json → String
  | .null => "null"
  | .bool b => if b then "true" else "false"
  | .int n => toString n
  | .str s => pyQuote s
  | .arr [] => "[]"
  | .arr (x :: xs) =>
      "[\n" ++ String.intercalate ",\n"
        ((pyDumpsList (ind + 1) (x :: xs)).map (fun t => indentStr (ind + 1) ++ t))
      ++ "\n" ++ indentStr ind ++ "]"
  | .obj [] => "\x7b\x7d"
  | .obj (f :: fs) =>
      "\x7b\n" ++ String.intercalate ",\n"
        ((pyDumpsFields (ind + 1) (f :: fs)).map (fun t => indentStr (ind + 1) ++ t))
      ++ "\n" ++ indentStr ind ++ "\x7d"

def pyDumpsList (ind : Nat) : List Json → List String
  | [] => []
  | x :: xs => pyDumps ind x :: pyDumpsList ind xs

def pyDumpsFields (ind : Nat) : List (String × Json) → List String
  | [] => []
  | (k, v) :: fs => (pyQuote k ++ ": " ++ pyDumps ind v) :: pyDumpsFields ind fs
end

/-- Two-digit lowercase hex, for `\xhh` escapes in `repr`. -/
def hex2 (n : Nat) : String := String.mk [hexDigit (n / 16 % 16), hexDigit (n % 16)]

/-- Escape of one character inside a Python string `repr`, for a given
quote character. -/
def pyReprEscapeChar (quote : Char) (c : Char) : String :=
  if c = '\\' then "\\\\"
  else if c = quote then "\\" ++ String.singleton quote
  else if c = '\n' then "\\n"
  else if c = '\r' then "\\r"
  else if c = '\t' then "\\t"
  else if c.toNat < 32 ∨ c.toNat = 127 then "\\x" ++ hex2 c.toNat
  else String.singleton c

/-- Python `repr` of a string: single quotes unless the string contains
a single quote but no double quote.  (Non-ASCII printability subtleties
are irrelevant here: every formatted string is ASCII.) -/
def pyReprStr (s : String) : String :=
  let quote := if s.data.contains '\'' ∧ ¬ s.data.contains '"' then '"' else '\''
  String.singleton quote ++ String.join (s.data.map (pyReprEscapeChar quote))
    ++ String.singleton quote

mutual
/-- Python `repr` of an embedded value. -/
def pyRepr : Json → String
  | .null => "None"
  | .bool b => if b then "True" else "False"
  | .int n => toString n
  | .str s => pyReprStr s
  | .arr xs => "[" ++ String.intercalate ", " (pyReprList xs) ++ "]"
  | .obj fs => "\x7b" ++ String.intercalate ", " (pyReprFields fs) ++ "\x7d"

def pyReprList : List Json → List String
  | [] => []
  | x :: xs => pyRepr x :: pyReprList xs

def pyReprFields : List (String × Json) → List String
  | [] => []
  | (k, v) :: fs => (pyReprStr k ++ ": " ++ pyRepr v) :: pyReprFields fs
end

/-- Python `str(value)` as used by the gateway's f-strings: the string
itself for strings, `repr` otherwise (containers included). -/
def pyStr : Json → String
  | .null => "None"
  | .bool b => if b then "True" else "False"
  | .int n => toString n
  | .str s => s
  | .arr xs => pyRepr (.arr xs)
  | .obj fs => pyRepr (.obj fs)

/-- ASCII lowercase of one character (`str.lower()`; every string the
gateway lowercases is ASCII). -/
def pyCharLower (c : Char) : Char :=
  if 'A' ≤ c ∧ c ≤ 'Z' then Char.ofNat (c.toNat + 32) else c

/-- Python `s.lower()` for ASCII strings. -/
def pyStrLower (s : String) : String := String.mk (s.data.map pyCharLower)

/-- Python `isinstance(x, int)` (booleans are ints in Python). -/
def jIsInt : Json → Bool
  | .int _ => true
  | .bool _ => true
  | _ => false

/-- The integer value of an embedded Python int (`True` is `1`). -/
def jAsInt : Json → Int
  | .int n => n
  | .bool b => if b then 1 else 0
  | _ => 0

/-! ## ProposalSet validator: `proposal/src/validator.py` -/

/-- `_validate_route_candidate_payload(payload, pfx)`. -/
def validate_route_candidate_payload (payload : Json) (pfx : String) : List String :=
  match payload with
  | .obj pfs =>
      let missing :=
        (if jHas pfs "intent" then [] else [pfx ++ "_PAYLOAD_MISSING_INTENT"]) ++
        (if jHas pfs "slots" then [] else [pfx ++ "_PAYLOAD_MISSING_SLOTS"])
      if missing ≠ [] then missing
      else
        let extra := extraSorted (jKeys pfs) ["intent", "slots"]
        let extraErrs :=
          if extra ≠ [] then
            [pfx ++ "_PAYLOAD_UNEXPECTED_FIELDS:" ++ String.intercalate "," extra]
          else []
        let intentErrs :=
          match (jGet pfs "intent").getD .null with
          | .str intent =>
              if ["RESTART_SUBSYSTEM", "STOP_SUBSYSTEM", "STATUS_QUERY"].contains intent then []
              else [pfx ++ "_INVALID_INTENT:" ++ intent]
          | _ => [pfx ++ "_INTENT_NOT_STRING"]
        let slotsErrs :=
          match (jGet pfs "slots").getD .null with
          | .obj sfs =>
              let extraSlots := extraSorted (jKeys sfs) ["target", "mode"]
              (if extraSlots ≠ [] then
                [pfx ++ "_SLOTS_UNEXPECTED_FIELDS:" ++ String.intercalate "," extraSlots]
              else []) ++
              (match jGet sfs "target" with
               | none => []
               | some (.str target) =>
                   if ["alpha", "beta", "gamma"].contains target then []
                   else [pfx ++ "_INVALID_TARGET:" ++ target]
               | some _ => [pfx ++ "_TARGET_NOT_STRING"]) ++
              (match jGet sfs "mode" with
               | none => []
               | some (.str mode) =>
                   if ["graceful", "immediate"].contains mode then []
                   else [pfx ++ "_INVALID_MODE:" ++ mode]
               | some _ => [pfx ++ "_MODE_NOT_STRING"])
          | _ => [pfx ++ "_SLOTS_NOT_OBJECT"]
        extraErrs ++ intentErrs ++ slotsErrs
  | _ => [pfx ++ "_PAYLOAD_NOT_OBJECT"]

/-- `_validate_state_transition_request_payload(payload, pfx)` (L-4). -/
def validate_state_transition_request_payload (payload : Json) (pfx : String) :
    List String :=
  match payload with
  | .obj pfs =>
      if !jHas pfs "event_token" then [pfx ++ "_PAYLOAD_MISSING_EVENT_TOKEN"]
      else
        let extra := extraSorted (jKeys pfs) ["event_token"]
        (if extra ≠ [] then
          [pfx ++ "_PAYLOAD_UNEXPECTED_FIELDS:" ++ String.intercalate "," extra]
        else []) ++
        (match (jGet pfs "event_token").getD .null with
         | .str _ => []
         | _ => [pfx ++ "_EVENT_TOKEN_NOT_STRING"])
  | _ => [pfx ++ "_PAYLOAD_NOT_OBJECT"]

/-- `_validate_proposal(proposal, index)`. -/
def validate_proposal (proposal : Json) (index : Nat) : List String :=
  let pfx := "PROPOSAL_" ++ toString index
  match proposal with
  | .obj pfs =>
      let missing :=
        (if jHas pfs "kind" then [] else [pfx ++ "_MISSING_KIND"]) ++
        (if jHas pfs "payload" then [] else [pfx ++ "_MISSING_PAYLOAD"])
      if missing ≠ [] then missing
      else
        let extra := extraSorted (jKeys pfs) ["kind", "payload"]
        let extraErrs :=
          if extra ≠ [] then
            [pfx ++ "_UNEXPECTED_FIELDS:" ++ String.intercalate "," extra]
          else []
        let kind := (jGet pfs "kind").getD .null
        let kindErrs :=
          match kind with
          | .str k =>
              if ["ROUTE_CANDIDATE", "STATE_TRANSITION_REQUEST"].contains k then []
              else [pfx ++ "_INVALID_KIND:" ++ k]
          | _ => [pfx ++ "_KIND_NOT_STRING"]
        let payload := (jGet pfs "payload").getD .null
        let payloadErrs :=
          if Json.beq kind (.str "ROUTE_CANDIDATE") then
            validate_route_candidate_payload payload pfx
          else if Json.beq kind (.str "STATE_TRANSITION_REQUEST") then
            validate_state_transition_request_payload payload pfx
          else []
        extraErrs ++ kindErrs ++ payloadErrs
  | _ => [pfx ++ "_NOT_OBJECT"]

/-- The per-proposal loop of `validate_proposal_set` (`enumerate`). -/
def validateProposalsFrom (i : Nat) : List Json → List String
  | [] => []
  | p :: ps => validate_proposal p i ++ validateProposalsFrom (i + 1) ps

/-- The loop over the optional `errors` array entries. -/
def validateErrorEntriesFrom (i : Nat) : List Json → List String
  | [] => []
  | e :: es =>
      (match e with
       | .str s => if s.length > 256 then ["ERROR_ENTRY_" ++ toString i ++ "_TOO_LONG:max=256"] else []
       | _ => ["ERROR_ENTRY_" ++ toString i ++ "_NOT_STRING"]) ++
      validateErrorEntriesFrom (i + 1) es

/-- `validate_proposal_set(data)` — structural validation of a
ProposalSet against the m1.0 schema.  Returns `(is_valid, errors)`. -/
def validate_proposal_set (data : Json) : Bool × List String :=
  match data with
  | .obj fs =>
      let missing :=
        (["schema_version", "input", "proposals"].filter (fun f => !jHas fs f)).map
          (fun f => "MISSING_REQUIRED_FIELD:" ++ f)
      if missing ≠ [] then (false, missing)
      else
        let extra := extraSorted (jKeys fs) ["schema_version", "input", "proposals", "errors"]
        let extraErrs :=
          if extra ≠ [] then ["UNEXPECTED_ROOT_FIELDS:" ++ String.intercalate "," extra]
          else []
        let versionErrs :=
          if Json.beq ((jGet fs "schema_version").getD .null) (.str "m1.0") then []
          else ["INVALID_SCHEMA_VERSION:expected=m1.0"]
        let inputErrs :=
          match (jGet fs "input").getD .null with
          | .obj infs =>
              (match jGet infs "raw" with
               | none => ["MISSING_INPUT_RAW"]
               | some (.str raw) =>
                   if raw.length > 4096 then ["INPUT_RAW_TOO_LONG:max=4096"] else []
               | some _ => ["INPUT_RAW_NOT_STRING"]) ++
              (let ei := extraSorted (jKeys infs) ["raw"]
               if ei ≠ [] then ["UNEXPECTED_INPUT_FIELDS:" ++ String.intercalate "," ei]
               else [])
          | _ => ["INPUT_NOT_OBJECT"]
        let proposalErrs :=
          match (jGet fs "proposals").getD .null with
          | .arr props =>
              (if props.length > 8 then ["TOO_MANY_PROPOSALS:max=8"] else []) ++
              validateProposalsFrom 0 props
          | _ => ["PROPOSALS_NOT_ARRAY"]
        let errorFieldErrs :=
          match jGet fs "errors" with
          | none => []
          | some (.arr es) =>
              (if es.length > 16 then ["TOO_MANY_ERROR_ENTRIES:max=16"] else []) ++
              validateErrorEntriesFrom 0 es
          | some _ => ["ERRORS_NOT_ARRAY"]
        let errs := extraErrs ++ versionErrs ++ inputErrs ++ proposalErrs ++ errorFieldErrs
        (errs.isEmpty, errs)
  | _ => (false, ["ROOT_NOT_OBJECT"])

/-! ## Artifact validator: `artifact/src/validator.py` -/

/-- `RUN_ID_PATTERN` character class `[A-Za-z0-9._-]`. -/
def runIdChar (c : Char) : Bool :=
  c.isAlpha || c.isDigit || c = '.' || c = '_' || c = '-'

/-- `NOTE_PATTERN` character class `[A-Z0-9_:]`. -/
def noteChar (c : Char) : Bool :=
  ('A' ≤ c && c ≤ 'Z') || c.isDigit || c = '_' || c = ':'

/-- `re.match(r"^[cls]+$", s)` for a character class: the whole string
(or the string less one final newline, which Python's `$` tolerates)
is a nonempty run of class characters. -/
def reMatchClassPlus (cls : Char → Bool) (s : String) : Bool :=
  let core :=
    match s.data.getLast? with
    | some c => if c = '\n' then s.data.dropLast else s.data
    | none => s.data
  core ≠ [] && core.all cls

/-- `_is_absolute_path(path)`: Unix absolute, Windows drive, or UNC. -/
def is_absolute_path (path : String) : Bool :=
  (match path.data with
   | '/' :: _ => true
   | _ => false) ||
  (match path.data with
   | c1 :: c2 :: c3 :: _ => c1.isAlpha && c2 = ':' && (c3 = '\\' || c3 = '/')
   | _ => false) ||
  (match path.data with
   | '\\' :: '\\' :: _ => true
   | _ => false)

/-- `_validate_route(route)` of the artifact validator. -/
def validate_route (route : List (String × Json)) : List String :=
  let missing :=
    (if jHas route "intent" then [] else ["ROUTE_MISSING_INTENT"]) ++
    (if jHas route "target" then [] else ["ROUTE_MISSING_TARGET"])
  if missing ≠ [] then missing
  else
    let extra := extraSorted (jKeys route) ["intent", "target", "mode"]
    (if extra ≠ [] then ["ROUTE_UNEXPECTED_FIELDS:" ++ String.intercalate "," extra]
     else []) ++
    (match (jGet route "intent").getD .null with
     | .str intent =>
         if ["RESTART_SUBSYSTEM", "STOP_SUBSYSTEM", "STATUS_QUERY"].contains intent then []
         else ["ROUTE_INVALID_INTENT:" ++ intent]
     | _ => ["ROUTE_INTENT_NOT_STRING"]) ++
    (match (jGet route "target").getD .null with
     | .str target =>
         if ["alpha", "beta", "gamma"].contains target then []
         else ["ROUTE_INVALID_TARGET:" ++ target]
     | _ => ["ROUTE_TARGET_NOT_STRING"]) ++
    (match jGet route "mode" with
     | none => []
     | some (.str mode) =>
         if ["graceful", "immediate"].contains mode then []
         else ["ROUTE_INVALID_MODE:" ++ mode]
     | some _ => ["ROUTE_MODE_NOT_STRING"])

/-- `_validate_accept_payload(payload)` of the artifact validator.  The
only accepted payload kind is `"ROUTE"` (`VALID_ACCEPT_KINDS`), and a
`route` field is required. -/
def validate_accept_payload (payload : Json) : List String :=
  match payload with
  | .obj pfs =>
      let missing :=
        (if jHas pfs "kind" then [] else ["ACCEPT_PAYLOAD_MISSING_KIND"]) ++
        (if jHas pfs "route" then [] else ["ACCEPT_PAYLOAD_MISSING_ROUTE"])
      if missing ≠ [] then missing
      else
        let extra := extraSorted (jKeys pfs) ["kind", "route"]
        (if extra ≠ [] then
          ["ACCEPT_PAYLOAD_UNEXPECTED_FIELDS:" ++ String.intercalate "," extra]
        else []) ++
        (match (jGet pfs "kind").getD .null with
         | .str kind =>
             if ["ROUTE"].contains kind then []
             else ["ACCEPT_PAYLOAD_INVALID_KIND:" ++ kind]
         | _ => ["ACCEPT_PAYLOAD_KIND_NOT_STRING"]) ++
        (match (jGet pfs "route").getD .null with
         | .obj route => validate_route route
         | _ => ["ROUTE_NOT_OBJECT"])
  | _ => ["ACCEPT_PAYLOAD_NOT_OBJECT"]

/-- The loop over the optional `notes` array of a reject payload. -/
def validateNotesFrom (i : Nat) : List Json → List String
  | [] => []
  | n :: ns =>
      (match n with
       | .str s =>
           if s.length > 128 then ["NOTE_" ++ toString i ++ "_TOO_LONG:max=128"]
           else if !reMatchClassPlus noteChar s then
             ["NOTE_" ++ toString i ++ "_INVALID_PATTERN"]
           else []
       | _ => ["NOTE_" ++ toString i ++ "_NOT_STRING"]) ++
      validateNotesFrom (i + 1) ns

/-- `_validate_reject_payload(payload)` of the artifact validator.  The
closed reason-code set is `VALID_REASON_CODES = {NO_PROPOSALS,
AMBIGUOUS_PROPOSALS, INVALID_PROPOSALS}`. -/
def validate_reject_payload (payload : Json) : List String :=
  match payload with
  | .obj pfs =>
      if !jHas pfs "reason_code" then ["REJECT_PAYLOAD_MISSING_REASON_CODE"]
      else
        let extra := extraSorted (jKeys pfs) ["reason_code", "notes"]
        (if extra ≠ [] then
          ["REJECT_PAYLOAD_UNEXPECTED_FIELDS:" ++ String.intercalate "," extra]
        else []) ++
        (match (jGet pfs "reason_code").getD .null with
         | .str rc =>
             if ["NO_PROPOSALS", "AMBIGUOUS_PROPOSALS", "INVALID_PROPOSALS"].contains rc then []
             else ["REJECT_PAYLOAD_INVALID_REASON_CODE:" ++ rc]
         | _ => ["REJECT_PAYLOAD_REASON_CODE_NOT_STRING"]) ++
        (match jGet pfs "notes" with
         | none => []
         | some (.arr notes) =>
             (if notes.length > 8 then ["TOO_MANY_NOTES:max=8"] else []) ++
             validateNotesFrom 0 notes
         | some _ => ["NOTES_NOT_ARRAY"])
  | _ => ["REJECT_PAYLOAD_NOT_OBJECT"]

/-- The loop over the optional `validator_errors` array. -/
def validateValidatorErrorsFrom (i : Nat) : List Json → List String
  | [] => []
  | e :: es =>
      (match e with
       | .str s =>
           if s.length > 256 then ["VALIDATOR_ERROR_" ++ toString i ++ "_TOO_LONG:max=256"]
           else []
       | _ => ["VALIDATOR_ERROR_" ++ toString i ++ "_NOT_STRING"]) ++
      validateValidatorErrorsFrom (i + 1) es

/-- `_validate_construction(construction)` of the artifact validator. -/
def validate_construction (construction : List (String × Json)) : List String :=
  let missing :=
    (if jHas construction "ruleset_id" then [] else ["CONSTRUCTION_MISSING_RULESET_ID"]) ++
    (if jHas construction "proposal_count" then [] else ["CONSTRUCTION_MISSING_PROPOSAL_COUNT"])
  if missing ≠ [] then missing
  else
    let extra := extraSorted (jKeys construction)
      ["ruleset_id", "selected_proposal_index", "proposal_count", "validator_errors"]
    (if extra ≠ [] then
      ["CONSTRUCTION_UNEXPECTED_FIELDS:" ++ String.intercalate "," extra]
    else []) ++
    (match (jGet construction "ruleset_id").getD .null with
     | .str rid =>
         if rid = "M2_RULESET_V1" then []
         else ["CONSTRUCTION_INVALID_RULESET_ID:expected=M2_RULESET_V1"]
     | _ => ["CONSTRUCTION_RULESET_ID_NOT_STRING"]) ++
    (match jGet construction "selected_proposal_index" with
     | none => []
     | some .null => []
     | some idx =>
         if !jIsInt idx then ["SELECTED_PROPOSAL_INDEX_NOT_INT"]
         else if jAsInt idx < 0 ∨ jAsInt idx > 7 then
           ["SELECTED_PROPOSAL_INDEX_OUT_OF_RANGE:" ++ toString (jAsInt idx)]
         else []) ++
    (let pc := (jGet construction "proposal_count").getD .null
     if !jIsInt pc then ["PROPOSAL_COUNT_NOT_INT"]
     else if jAsInt pc < 0 ∨ jAsInt pc > 8 then
       ["PROPOSAL_COUNT_OUT_OF_RANGE:" ++ toString (jAsInt pc)]
     else []) ++
    (match jGet construction "validator_errors" with
     | none => []
     | some (.arr es) =>
         (if es.length > 16 then ["TOO_MANY_VALIDATOR_ERRORS:max=16"] else []) ++
         validateValidatorErrorsFrom 0 es
     | some _ => ["VALIDATOR_ERRORS_NOT_ARRAY"])

/-- `validate_artifact(data)` — structural validation of an Artifact
(decision record) against the artifact_v1 schema.
Returns `(is_valid, errors)`. -/
def validate_artifact (data : Json) : Bool × List String :=
  match data with
  | .obj fs =>
      let missing :=
        (["artifact_version", "run_id", "input_ref", "proposal_set_ref", "decision",
          "construction"].filter (fun f => !jHas fs f)).map
          (fun f => "MISSING_REQUIRED_FIELD:" ++ f)
      if missing ≠ [] then (false, missing)
      else
        let decision := jGet fs "decision"
        let allowed_root :=
          ["artifact_version", "run_id", "input_ref", "proposal_set_ref", "decision",
           "construction"] ++
          (if Json.beq (decision.getD .null) (.str "ACCEPT") then ["accept_payload"]
           else if Json.beq (decision.getD .null) (.str "REJECT") then ["reject_payload"]
           else [])
        let extra := extraSorted (jKeys fs) allowed_root
        let extraErrs :=
          if extra ≠ [] then ["UNEXPECTED_ROOT_FIELDS:" ++ String.intercalate "," extra]
          else []
        let versionErrs :=
          if Json.beq ((jGet fs "artifact_version").getD .null) (.str "artifact_v1") then []
          else ["INVALID_ARTIFACT_VERSION:expected=artifact_v1"]
        let runIdErrs :=
          match (jGet fs "run_id").getD .null with
          | .str rid =>
              if rid.length > 64 then ["RUN_ID_TOO_LONG:max=64"]
              else if !reMatchClassPlus runIdChar rid then ["RUN_ID_INVALID_PATTERN"]
              else []
          | _ => ["RUN_ID_NOT_STRING"]
        let inputRefErrs :=
          match (jGet fs "input_ref").getD .null with
          | .str r =>
              if r.length > 512 then ["INPUT_REF_TOO_LONG:max=512"]
              else if is_absolute_path r then ["INPUT_REF_ABSOLUTE_PATH"]
              else []
          | _ => ["INPUT_REF_NOT_STRING"]
        let proposalSetRefErrs :=
          match (jGet fs "proposal_set_ref").getD .null with
          | .str r =>
              if r.length > 512 then ["PROPOSAL_SET_REF_TOO_LONG:max=512"]
              else if is_absolute_path r then ["PROPOSAL_SET_REF_ABSOLUTE_PATH"]
              else []
          | _ => ["PROPOSAL_SET_REF_NOT_STRING"]
        let decisionErrs :=
          match decision.getD .null with
          | .str d =>
              if d = "ACCEPT" then
                (match jGet fs "accept_payload" with
                 | none => ["ACCEPT_MISSING_ACCEPT_PAYLOAD"]
                 | some payload => validate_accept_payload payload) ++
                (if jHas fs "reject_payload" then ["ACCEPT_HAS_REJECT_PAYLOAD"] else [])
              else if d = "REJECT" then
                (match jGet fs "reject_payload" with
                 | none => ["REJECT_MISSING_REJECT_PAYLOAD"]
                 | some payload => validate_reject_payload payload) ++
                (if jHas fs "accept_payload" then ["REJECT_HAS_ACCEPT_PAYLOAD"] else [])
              else ["INVALID_DECISION:" ++ d]
          | _ => ["DECISION_NOT_STRING"]
        let constructionErrs :=
          match (jGet fs "construction").getD .null with
          | .obj cfs => validate_construction cfs
          | _ => ["CONSTRUCTION_NOT_OBJECT"]
        let errs := extraErrs ++ versionErrs ++ runIdErrs ++ inputRefErrs ++
          proposalSetRefErrs ++ decisionErrs ++ constructionErrs
        (errs.isEmpty, errs)
  | _ => (false, ["ROOT_NOT_OBJECT"])

/-! ## Decision engine: `artifact/src/builder.py` -/

/-- `L3_ENVELOPE["slots"]`: the single enumerated envelope's slots. -/
def L3_ENVELOPE_SLOTS : Json := .obj [("target", .str "alpha")]

/-- `_check_l3_envelope(proposal)`: exact-match test for the single
enumerated L-3 ACCEPT envelope (kind `ROUTE_CANDIDATE`,
intent `STATUS_QUERY`, slots exactly `{"target": "alpha"}`, no extra
keys anywhere). -/
def check_l3_envelope (proposal : Json) : Bool :=
  match proposal with
  | .obj pfs =>
      if !Json.beq ((jGet pfs "kind").getD .null) (.str "ROUTE_CANDIDATE") then false
      else
        match jGet pfs "payload" with
        | some (.obj payload) =>
            if !Json.beq ((jGet payload "intent").getD .null) (.str "STATUS_QUERY") then false
            else
              match jGet payload "slots" with
              | some (.obj slots) =>
                  if !pyEq (.obj slots) L3_ENVELOPE_SLOTS then false
                  else if !pySetEqStr (jKeys payload) ["intent", "slots"] then false
                  else if !pySetEqStr (jKeys pfs) ["kind", "payload"] then false
                  else true
              | _ => false
        | _ => false
  | _ => false

/-- `_check_l4_proposal(proposal)`: is this a
`STATE_TRANSITION_REQUEST` proposal? -/
def check_l4_proposal (proposal : Json) : Bool :=
  match proposal with
  | .obj pfs => Json.beq ((jGet pfs "kind").getD .null) (.str "STATE_TRANSITION_REQUEST")
  | _ => false

/-- `_validate_l4_transition(proposal)`: validate an L-4 transition
request against the frozen state machine, from the fixed initial state.
Returns `(is_valid, transition_payload, reject_reason_code)`.  The
`ImportError`/`Exception` fallbacks of the source cannot fire in this
embedding (the state machine is total). -/
def validate_l4_transition (proposal : Json) :
    Bool × Option Json × Option String :=
  let payload :=
    match proposal with
    | .obj pfs => jGet pfs "payload"
    | _ => none
  match payload with
  | some (.obj pl) =>
      (match jGet pl "event_token" with
       | some (.str event_token_str) =>
           (match eventTokenOfString event_token_str with
            | none => (false, none, some "INVALID_EVENT_TOKEN")
            | some event_token =>
                let current_state := INITIAL_STATE
                let result := apply_transition current_state event_token
                if !result.valid then
                  (match result.error_code with
                   | some "INVALID_EVENT_TOKEN" => (false, none, some "INVALID_EVENT_TOKEN")
                   | some "ILLEGAL_TRANSITION" => (false, none, some "ILLEGAL_TRANSITION")
                   | some "INVALID_CURRENT_STATE" => (false, none, some "INVALID_CURRENT_STATE")
                   | _ => (false, none, some "ILLEGAL_TRANSITION"))
                else
                  match result.next_state with
                  | some next_state =>
                      let is_terminal := next_state ∈ TERMINAL_STATES
                      (true,
                       some (.obj
                         [("order_id", .str DEMO_ORDER_ID),
                          ("previous_state", .str current_state.value),
                          ("event", .str event_token.value),
                          ("current_state", .str next_state.value),
                          ("terminal", .bool is_terminal)]),
                       none)
                  | none => (false, none, some "ILLEGAL_TRANSITION"))
       | _ => (false, none, some "INVALID_EVENT_TOKEN"))
  | _ => (false, none, some "INVALID_EVENT_TOKEN")

/-- `_safe_proposal_count(proposal_set)`. -/
def safe_proposal_count (proposal_set : Json) : Int :=
  match proposal_set with
  | .obj fs =>
      match jGet fs "proposals" with
      | some (.arr props) => min (props.length : Int) 8
      | _ => 0
  | _ => 0

/-- `_extract_route(proposal)`: route dict with `intent`, `target`, and
`mode` when present. -/
def extract_route (proposal : Json) : Json :=
  let payload :=
    match proposal with
    | .obj pfs => (jGet pfs "payload").getD .null
    | _ => .null
  match payload with
  | .obj pl =>
      let slots := (jGet pl "slots").getD .null
      (match slots with
       | .obj sfs =>
           .obj
             ([("intent", (jGet pl "intent").getD .null),
               ("target", (jGet sfs "target").getD .null)] ++
              (match jGet sfs "mode" with
               | some m => [("mode", m)]
               | none => []))
       | _ => .obj [("intent", (jGet pl "intent").getD .null), ("target", .null)])
  | _ => .null

/-- `_build_accept_artifact(...)`: the L-3 ROUTE ACCEPT artifact. -/
def build_accept_artifact (run_id input_ref proposal_set_ref : String)
    (route : Json) (selected_proposal_index proposal_count : Int) : Json :=
  .obj
    [("artifact_version", .str "artifact_v1"),
     ("run_id", .str run_id),
     ("input_ref", .str input_ref),
     ("proposal_set_ref", .str proposal_set_ref),
     ("decision", .str "ACCEPT"),
     ("accept_payload", .obj [("kind", .str "ROUTE"), ("route", route)]),
     ("construction", .obj
       [("ruleset_id", .str "M2_RULESET_V1"),
        ("selected_proposal_index", .int selected_proposal_index),
        ("proposal_count", .int proposal_count)])]

/-- `_build_l4_accept_artifact(...)`: the L-4 STATE_TRANSITION ACCEPT
artifact. -/
def build_l4_accept_artifact (run_id input_ref proposal_set_ref : String)
    (transition : Json) (selected_proposal_index proposal_count : Int) : Json :=
  .obj
    [("artifact_version", .str "artifact_v1"),
     ("run_id", .str run_id),
     ("input_ref", .str input_ref),
     ("proposal_set_ref", .str proposal_set_ref),
     ("decision", .str "ACCEPT"),
     ("accept_payload", .obj [("kind", .str "STATE_TRANSITION"), ("transition", transition)]),
     ("construction", .obj
       [("ruleset_id", .str "M2_RULESET_V1"),
        ("selected_proposal_index", .int selected_proposal_index),
        ("proposal_count", .int proposal_count)])]

/-- `_build_reject_artifact(...)`: a REJECT artifact, with `notes`
capped at `MAX_NOTES = 8` and `validator_errors` at
`MAX_VALIDATOR_ERRORS = 16`. -/
def build_reject_artifact (run_id input_ref proposal_set_ref reason_code : String)
    (proposal_count : Int) (validator_errors : List String)
    (notes : List String := []) : Json :=
  let reject_payload :=
    [("reason_code", Json.str reason_code)] ++
    (if notes ≠ [] then [("notes", Json.arr ((notes.take 8).map Json.str))] else [])
  let construction :=
    [("ruleset_id", Json.str "M2_RULESET_V1"),
     ("selected_proposal_index", Json.null),
     ("proposal_count", Json.int proposal_count)] ++
    (if validator_errors ≠ [] then
      [("validator_errors", Json.arr ((validator_errors.take 16).map Json.str))]
    else [])
  .obj
    [("artifact_version", .str "artifact_v1"),
     ("run_id", .str run_id),
     ("input_ref", .str input_ref),
     ("proposal_set_ref", .str proposal_set_ref),
     ("decision", .str "REJECT"),
     ("reject_payload", .obj reject_payload),
     ("construction", .obj construction)]

/-- `_validate_proposal_set_safe(proposal_set)`: the non-dict check
followed by `validate_proposal_set` (whose embedding cannot raise, so
the `VALIDATION_EXCEPTION` branch is unreachable). -/
def validate_proposal_set_safe (proposal_set : Json) : Bool × List String :=
  match proposal_set with
  | .obj _ => validate_proposal_set proposal_set
  | _ => (false, ["PROPOSAL_SET_NOT_OBJECT"])

/-- `build_artifact(proposal_set, run_id, input_ref, proposal_set_ref)`
— the decision engine, following `M2_RULESET_V1` with the (always
enabled) L-3 envelope gate and L-4 state-machine gate. -/
def build_artifact (proposal_set : Json)
    (run_id input_ref proposal_set_ref : String) : Json :=
  match validate_proposal_set_safe proposal_set with
  | (is_valid, validation_errors) =>
    if !is_valid then
      build_reject_artifact run_id input_ref proposal_set_ref "INVALID_PROPOSALS"
        (safe_proposal_count proposal_set) (validation_errors.take 16)
    else
      let proposals :=
        match proposal_set with
        | .obj fs =>
            match jGet fs "proposals" with
            | some (.arr props) => props
            | _ => []
        | _ => []
      let proposal_count := proposals.length
      if proposal_count = 0 then
        build_reject_artifact run_id input_ref proposal_set_ref "NO_PROPOSALS" 0 []
      else if proposal_count = 1 then
        let proposal := proposals.headD .null
        if check_l4_proposal proposal then
          match validate_l4_transition proposal with
          | (true, some transition_payload, _) =>
              build_l4_accept_artifact run_id input_ref proposal_set_ref
                transition_payload 0 1
          | (_, _, reject_reason) =>
              let reason := reject_reason.getD "ILLEGAL_TRANSITION"
              build_reject_artifact run_id input_ref proposal_set_ref reason 1 []
                ["L4_REJECT:" ++ reason]
        else if !check_l3_envelope proposal then
          build_reject_artifact run_id input_ref proposal_set_ref "INVALID_PROPOSALS" 1 []
            ["L3_ENVELOPE_MISMATCH"]
        else
          build_accept_artifact run_id input_ref proposal_set_ref
            (extract_route proposal) 0 1
      else
        build_reject_artifact run_id input_ref proposal_set_ref "AMBIGUOUS_PROPOSALS"
          proposal_count []
          ["PROPOSAL_COUNT:" ++ toString proposal_count]

/-- `artifact_to_json(artifact)`:
`json.dumps(artifact, sort_keys=True, indent=2)` — note: no trailing
newline is appended, and `build_and_save_artifact`
(`m3/src/orchestrator.py`) writes exactly this string to the Decision
Record file. -/
def artifact_to_json (artifact : Json) : String :=
  pyDumps 0 artifact.sortKeys

/-! ## Execution gateway: `m3/src/gateway.py`

`execute_if_accepted` is embedded as a pure dispatch function whose
result records what the gateway does: raise
`ExecutionBoundaryViolation`, return the REJECT no-op `ExecutionResult`,
write the synthesized L-4 run directory, or invoke the PoC v2 backend
subprocess.  Filesystem writes are recorded as `(file name, content)`
pairs inside the chosen run directory; the backend subprocess itself is
opaque and is represented by the `route_backend_invoked` outcome. -/

/-- The files the L-4 state-transition path writes into its freshly
created run directory, with the fixed exit code of the
`ExecutionResult`. -/
structure StateTransitionWrite where
  run_dir_name : String
  files : List (String × String)
  exit_code : Int
deriving Repr

/-- Everything `execute_if_accepted` can do. -/
inductive GatewayOutcome where
  /-- `raise ExecutionBoundaryViolation(...)` with the validation errors. -/
  | boundary_violation (validation_errors : List String)
  /-- `ExecutionResult(executed=False, decision="REJECT", error=...)`:
  the REJECT no-op — nothing written, no process spawned. -/
  | rejected_no_op
  /-- The L-4 STATE_TRANSITION path: `ExecutionResult(executed=True,
  decision="ACCEPT", run_directory=..., exit_code=0)` after writing the
  recorded files; no process spawned. -/
  | state_transition_executed (w : StateTransitionWrite)
  /-- `ExecutionResult(executed=False, decision="ACCEPT",
  error="Input file not found: ...")`. -/
  | route_input_missing
  /-- The ROUTE path: the frozen PoC v2 backend is invoked exactly once
  as a subprocess. -/
  | route_backend_invoked
deriving Repr

/-- `validate_artifact_for_execution(artifact)` →
`(can_execute, decision, validation_errors)`. -/
def validate_artifact_for_execution (artifact : Json) : Bool × String × List String :=
  match validate_artifact artifact with
  | (false, errors) => (false, "INVALID", errors)
  | (true, _) =>
      let decision := (match artifact with | .obj fs => jGet fs "decision" | _ => none)
      if Json.beq (decision.getD .null) (.str "ACCEPT") then (true, "ACCEPT", [])
      else if Json.beq (decision.getD .null) (.str "REJECT") then (false, "REJECT", [])
      else (false, "INVALID", ["UNKNOWN_DECISION:" ++ pyStr (decision.getD .null)])

/-- `_execute_state_transition(artifact)`: synthesize the canonical
`key=value` execution-truth record (fixed field order `order_id`,
`previous_state`, `event`, `current_state`, `terminal`), plus
`exit_code.txt`, `stderr.raw.txt` and `execution.meta.json`, into the
freshly created run directory `l4_run_<run_id>`. -/
def execute_state_transition (repo_root : String) (artifact : Json) :
    StateTransitionWrite :=
  let fs := match artifact with | .obj fs => fs | _ => []
  let accept_payload :=
    match (jGet fs "accept_payload").getD (.obj []) with
    | .obj pfs => pfs
    | _ => []
  let transition :=
    match (jGet accept_payload "transition").getD (.obj []) with
    | .obj tfs => tfs
    | _ => []
  let run_id := (jGet fs "run_id").getD (.str "unknown")
  let run_dir_name := "l4_run_" ++ pyStr run_id
  let run_directory := repo_root ++ "/artifacts/run/" ++ run_dir_name
  let kv_content :=
    "order_id=" ++ pyStr ((jGet transition "order_id").getD (.str "")) ++ "\n" ++
    "previous_state=" ++ pyStr ((jGet transition "previous_state").getD (.str "")) ++ "\n" ++
    "event=" ++ pyStr ((jGet transition "event").getD (.str "")) ++ "\n" ++
    "current_state=" ++ pyStr ((jGet transition "current_state").getD (.str "")) ++ "\n" ++
    "terminal=" ++ pyStrLower (pyStr ((jGet transition "terminal").getD (.bool false))) ++ "\n"
  let meta : Json := .obj
    [("run_dir", .str run_directory),
     ("verification_passed", .bool true),
     ("execution_attempted", .bool true),
     ("exit_code", .int 0),
     ("stdout_path", .str "stdout.raw.kv"),
     ("stderr_path", .str "stderr.raw.txt"),
     ("execution_kind", .str "STATE_TRANSITION"),
     ("notes", .str "L-4 state transition execution")]
  { run_dir_name := run_dir_name,
    files :=
      [("stdout.raw.kv", kv_content),
       ("exit_code.txt", "0\n"),
       ("stderr.raw.txt", ""),
       ("execution.meta.json", pyDumps 0 meta.sortKeys)],
    exit_code := 0 }

/-- `execute_if_accepted(artifact, input_file_path)` — the gateway
dispatch: re-validate, raise on INVALID, no-op on REJECT, and
otherwise dispatch on `accept_payload.kind` (`STATE_TRANSITION`
synthesizes its record; anything else takes the PoC v2 ROUTE path). -/
def execute_if_accepted (repo_root : String) (artifact : Json)
    (input_file_exists : Bool) : GatewayOutcome :=
  match validate_artifact_for_execution artifact with
  | (_, decision, errors) =>
    if decision = "INVALID" then .boundary_violation errors
    else if decision = "REJECT" then .rejected_no_op
    else
      let accept_payload :=
        match artifact with
        | .obj fs => (jGet fs "accept_payload").getD (.obj [])
        | _ => .obj []
      let payload_kind :=
        match accept_payload with
        | .obj pfs => jGet pfs "kind"
        | _ => none
      if Json.beq (payload_kind.getD .null) (.str "STATE_TRANSITION") then
        .state_transition_executed (execute_state_transition repo_root artifact)
      else if !input_file_exists then .route_input_missing
      else .route_backend_invoked

/-! ## Proposal-acquisition seam:
`src/artifact_layer/run_context.py` and `seam_provider.py`

The mutable `RunContext` is embedded by explicit state passing:
`mark_seam_s_called` either raises `SeamSViolation` or returns the
consumed context. -/

/-- The `SeamSViolation` exception. -/
inductive SeamError where
  | seamSViolation (msg : String)
deriving Repr, DecidableEq

/-- `RunContext`: per-run state for Seam S enforcement. A fresh context
(`RunContext.__init__`) has `seam_s_called = false`. -/
structure RunContext where
  seam_s_called : Bool
deriving Repr, DecidableEq

/-- `RunContext.mark_seam_s_called()`: raises `SeamSViolation` on the
second call, otherwise marks the context consumed. -/
def RunContext.mark_seam_s_called (ctx : RunContext) : Except SeamError RunContext :=
  if ctx.seam_s_called then
    .error (.seamSViolation
      "Seam S may be called exactly once per run. Second invocation detected.")
  else
    .ok { seam_s_called := true }

/-- What the bound engine does when called on the input bytes:
return bytes, return a non-`bytes` value, or raise. -/
inductive EngineOutcome where
  | bytes (bs : List Nat)
  | nonBytes
  | raised
deriving Repr

/-- The engine-call part of `acquire_proposal_set`: no engine bound,
a non-`bytes` result, and any exception all collapse to empty bytes. -/
def runBoundEngine (engine : Option (List Nat → EngineOutcome))
    (raw_input_bytes : List Nat) : List Nat :=
  match engine with
  | none => []
  | some f =>
      match f raw_input_bytes with
      | .bytes bs => bs
      | .nonBytes => []
      | .raised => []

/-- `acquire_proposal_set(raw_input_bytes, ctx)`: the single proposal
acquisition seam.  If a context is supplied, `mark_seam_s_called` runs
first and its `SeamSViolation` propagates; every other failure collapses
to empty (opaque) bytes.  The returned context is the consumed one. -/
def acquire_proposal_set (engine : Option (List Nat → EngineOutcome))
    (raw_input_bytes : List Nat) (ctx : Option RunContext) :
    Except SeamError (List Nat × Option RunContext) :=
  match ctx with
  | some c =>
      match c.mark_seam_s_called with
      | .error e => .error e
      | .ok c' => .ok (runBoundEngine engine raw_input_bytes, some c')
  | none => .ok (runBoundEngine engine raw_input_bytes, none)

/-! ## Run discovery: `tests/l6/test_l6_run_discovery.py`

The snapshot/delta/candidate functions below embed the Path A reference
implementation of the L-6 tests (`_snapshot_run_dirs`, `_compute_delta`,
`_find_authoritative_dirs`).  The run-directory namespace is a list of
directories, each holding named files with string contents. -/

/-- One directory under the run root. -/
structure RunDir where
  name : String
  files : List (String × String)
deriving Repr

/-- `_snapshot_run_dirs(run_root)`: the names of the immediate child
directories. -/
def snapshot_run_dirs (run_root : List RunDir) : List String :=
  run_root.map (·.name)

/-- `_compute_delta(before, after)`: newly created directory names. -/
def compute_delta (before after : List String) : List String :=
  after.filter (fun d => !before.contains d)

/-- `os.path.isfile(join(run_root, dir_name, file_name))`. -/
def dirHasFile (run_root : List RunDir) (dir_name file_name : String) : Bool :=
  match run_root.find? (fun d => d.name = dir_name) with
  | some d => (d.files.find? (fun f => f.1 = file_name)).isSome
  | none => false

/-- The content of a file in a directory (empty if absent). -/
def dirFileContent (run_root : List RunDir) (dir_name file_name : String) : String :=
  match run_root.find? (fun d => d.name = dir_name) with
  | some d => ((d.files.find? (fun f => f.1 = file_name)).map (·.2)).getD ""
  | none => ""

/-- `_find_authoritative_dirs(new_dirs, run_root)`: the delta
directories that contain the execution-truth file `stdout.raw.kv` —
selection is by file presence only, never by name or content. -/
def find_authoritative_dirs (new_dirs : List String) (run_root : List RunDir) :
    List String :=
  new_dirs.filter (fun d => dirHasFile run_root d "stdout.raw.kv")

/-- `LocatorOutcome`: UNIQUE(path, hash) | NOT_FOUND | AMBIGUOUS. -/
inductive LocatorOutcome where
  | unique (path : String) (hash : Nat)
  | not_found
  | ambiguous
deriving Repr, DecidableEq

/-- Modelled from the spec: the Run Locator of the `brok-run` wrapper is
not part of the source tree (only the delta/candidate reference
functions above are, in `tests/l6`); its outcome classification follows
the spec's locator algorithm (§4.4): one candidate in the delta is
UNIQUE with its content hash; zero candidates trigger expanded
discovery over every execution-truth file in the namespace in sorted
order when a target hash is known (0 matches NOT_FOUND, 1 UNIQUE,
more AMBIGUOUS) and NOT_FOUND otherwise; more than one candidate is
AMBIGUOUS immediately, with no path selected. -/
def locate_run (hashFn : String → Nat) (known_hash : Option Nat)
    (before : List String) (run_root : List RunDir) : LocatorOutcome :=
  let after := snapshot_run_dirs run_root
  let delta := compute_delta before after
  let candidates := find_authoritative_dirs delta run_root
  match candidates with
  | [c] => .unique c (hashFn (dirFileContent run_root c "stdout.raw.kv"))
  | [] =>
      (match known_hash with
       | none => .not_found
       | some h =>
           let hash_matches :=
             (sortBy pyStrLe (snapshot_run_dirs run_root)).filter
               (fun d => dirHasFile run_root d "stdout.raw.kv" &&
                 hashFn (dirFileContent run_root d "stdout.raw.kv") == h)
           match hash_matches with
           | [] => .not_found
           | [m] => .unique m h
           | _ => .ambiguous)
  | _ => .ambiguous

/-! ## Concrete fixtures used by the claim theorems -/

/-- Field access on an embedded dict value (`.null` when absent). -/
def jfield (j : Json) (k : String) : Json :=
  match j with
  | .obj fs => (jGet fs k).getD .null
  | _ => .null

/-- The single enumerated L-3 ACCEPT envelope as a proposal. -/
def envelopeCandidate : Json :=
  .obj [("kind", .str "ROUTE_CANDIDATE"),
        ("payload", .obj [("intent", .str "STATUS_QUERY"),
                          ("slots", .obj [("target", .str "alpha")])])]

/-- The envelope plus one extra optional field `mode: graceful`
(schema-valid, outside the envelope). -/
def modeCandidate : Json :=
  .obj [("kind", .str "ROUTE_CANDIDATE"),
        ("payload", .obj [("intent", .str "STATUS_QUERY"),
                          ("slots", .obj [("target", .str "alpha"),
                                          ("mode", .str "graceful")])])]

/-- ProposalSet fields with exactly the envelope candidate. -/
def psEnvelopeFields : List (String × Json) :=
  [("schema_version", .str "m1.0"),
   ("input", .obj [("raw", .str "status of alpha subsystem")]),
   ("proposals", .arr [envelopeCandidate])]

/-- ProposalSet fields with the mode-extended candidate. -/
def psModeFields : List (String × Json) :=
  [("schema_version", .str "m1.0"),
   ("input", .obj [("raw", .str "status of alpha subsystem gracefully")]),
   ("proposals", .arr [modeCandidate])]

/-- ProposalSet with one legal L-4 transition request (`create_payment`
is legal from the initial state `CREATED`). -/
def psL4Create : Json :=
  .obj [("schema_version", .str "m1.0"),
        ("input", .obj [("raw", .str "create payment")]),
        ("proposals", .arr
          [.obj [("kind", .str "STATE_TRANSITION_REQUEST"),
                 ("payload", .obj [("event_token", .str "create_payment")])]])]

/-- ProposalSet with one illegal L-4 transition request
(`payment_succeeded` is not legal from `CREATED`). -/
def psL4Illegal : Json :=
  .obj [("schema_version", .str "m1.0"),
        ("input", .obj [("raw", .str "payment succeeded")]),
        ("proposals", .arr
          [.obj [("kind", .str "STATE_TRANSITION_REQUEST"),
                 ("payload", .obj [("event_token", .str "payment_succeeded")])]])]

/-- ProposalSet fields with zero proposals. -/
def psZeroFields : List (String × Json) :=
  [("schema_version", .str "m1.0"),
   ("input", .obj [("raw", .str "")]),
   ("proposals", .arr [])]

/-- ProposalSet fields with two schema-valid proposals. -/
def psTwoFields : List (String × Json) :=
  [("schema_version", .str "m1.0"),
   ("input", .obj [("raw", .str "t")]),
   ("proposals", .arr
     [.obj [("kind", .str "ROUTE_CANDIDATE"),
            ("payload", .obj [("intent", .str "RESTART_SUBSYSTEM"),
                              ("slots", .obj [("target", .str "alpha"),
                                              ("mode", .str "graceful")])])],
      .obj [("kind", .str "ROUTE_CANDIDATE"),
            ("payload", .obj [("intent", .str "STOP_SUBSYSTEM"),
                              ("slots", .obj [("target", .str "beta"),
                                              ("mode", .str "immediate")])])]])]

/-- Two fresh directories that both contain the execution-truth file,
with byte-identical contents (hence identical hashes). -/
def twoAuthDirs : List RunDir :=
  [{ name := "auth_1", files := [("stdout.raw.kv", "order_id=demo-order-1\n")] },
   { name := "auth_2", files := [("stdout.raw.kv", "order_id=demo-order-1\n")] }]

/-! ## Helper lemmas -/

/-- Serializing any embedded object ends with the closing brace. -/
lemma pyDumps_obj_getLast (fs : List (String × Json)) :
    (pyDumps 0 (Json.obj fs)).data.getLast? = some '}' := by
  cases fs with
  | nil => rfl
  | cons f fs =>
      simp only [pyDumps]
      rw [String.data_append, List.getLast?_append]
      rfl

/-- Every artifact the builder produces is an embedded object. -/
lemma build_artifact_isObj (ps : Json) (rid iref pref : String) :
    ∃ fs, build_artifact ps rid iref pref = Json.obj fs := by
  unfold build_artifact
  dsimp only
  repeat' split
  all_goals exact ⟨_, rfl⟩

/-! ## Claim theorems -/

set_option maxRecDepth 8000

/-- C5: for every (state, event) pair inside the closed state and event
sets but absent from the allowed-edge table, `apply_transition` returns
an invalid result with error code ILLEGAL_TRANSITION (the embedding is
a total function, so no exception can be raised). -/
theorem absent_edge_illegal_transition :
    ∀ (s : OrderState) (e : EventToken),
      edgeInTable s e = false →
      apply_transition s e =
        { valid := false, next_state := none, error_code := some "ILLEGAL_TRANSITION" } := by
  decide

/-- Witness for C5 at the concrete pair (PAID, create_payment). -/
theorem absent_edge_illegal_transition_witness :
    edgeInTable OrderState.PAID EventToken.create_payment = false ∧
    apply_transition OrderState.PAID EventToken.create_payment =
      { valid := false, next_state := none, error_code := some "ILLEGAL_TRANSITION" } :=
  ⟨by decide, absent_edge_illegal_transition OrderState.PAID EventToken.create_payment (by decide)⟩

/-- C6: cancel_order succeeds exactly from the four enumerated
allowed-from states, always to the terminal state CANCELLED, and fails
with ILLEGAL_TRANSITION from every other state, the two terminal states
included. -/
theorem cancel_order_edge_set :
    CANCELLATION_ALLOWED_FROM =
      [OrderState.CREATED, OrderState.PAYMENT_PENDING, OrderState.PAID,
       OrderState.INVENTORY_RESERVED] ∧
    OrderState.CANCELLED ∈ TERMINAL_STATES ∧
    decide (OrderState.DELIVERED ∈ CANCELLATION_ALLOWED_FROM) = false ∧
    decide (OrderState.CANCELLED ∈ CANCELLATION_ALLOWED_FROM) = false ∧
    ∀ s : OrderState,
      apply_transition s EventToken.cancel_order =
        (if s ∈ CANCELLATION_ALLOWED_FROM then
          { valid := true, next_state := some OrderState.CANCELLED, error_code := none }
        else
          { valid := false, next_state := none, error_code := some "ILLEGAL_TRANSITION" }) := by
  decide

/-- C10: whenever `apply_transition` accepts, the induced
(state, next-state) pair lies in the frozen ALLOWED_TRANSITIONS edge
set — the event-indexed table (cancel handling included) and the
independent edge set agree. -/
theorem valid_transition_in_allowed_edge_set :
    ∀ (s : OrderState) (e : EventToken),
      (apply_transition s e).valid = true →
      ∃ t, (apply_transition s e).next_state = some t ∧ (s, t) ∈ ALLOWED_TRANSITIONS := by
  decide

/-- Witness for C10 at the concrete pair (CREATED, create_payment). -/
theorem valid_transition_in_allowed_edge_set_witness :
    (apply_transition OrderState.CREATED EventToken.create_payment).valid = true ∧
    ∃ t, (apply_transition OrderState.CREATED EventToken.create_payment).next_state = some t ∧
      (OrderState.CREATED, t) ∈ ALLOWED_TRANSITIONS :=
  ⟨by decide,
   valid_transition_in_allowed_edge_set OrderState.CREATED EventToken.create_payment (by decide)⟩

/-- C7 counterexample: a concrete Decision Record produced by the
decision engine whose serialization (shown in full: sorted keys,
2-space indentation) ends with the closing brace, not with a newline —
the claimed trailing newline is absent. -/
theorem artifact_json_trailing_newline_counterexample :
    artifact_to_json (build_artifact (Json.obj psZeroFields) "r4" "i" "p") =
      "\x7b\n  \"artifact_version\": \"artifact_v1\",\n  \"construction\": \x7b\n    \"proposal_count\": 0,\n    \"ruleset_id\": \"M2_RULESET_V1\",\n    \"selected_proposal_index\": null\n  \x7d,\n  \"decision\": \"REJECT\",\n  \"input_ref\": \"i\",\n  \"proposal_set_ref\": \"p\",\n  \"reject_payload\": \x7b\n    \"reason_code\": \"NO_PROPOSALS\"\n  \x7d,\n  \"run_id\": \"r4\"\n\x7d" ∧
    ((artifact_to_json (build_artifact (Json.obj psZeroFields) "r4" "i" "p")).data.getLast?
      == some '\n') = false :=
  ⟨rfl, rfl⟩

/-- C7 (amended): every Decision Record produced by the decision engine
serializes (sorted keys, 2-space indentation) to a string that ends
with the object's closing brace; no trailing newline is appended. -/
theorem artifact_json_ends_with_brace (ps : Json) (rid iref pref : String) :
    (artifact_to_json (build_artifact ps rid iref pref)).data.getLast? = some '}' ∧
    ((artifact_to_json (build_artifact ps rid iref pref)).data.getLast? == some '\n') = false := by
  obtain ⟨fs, h⟩ := build_artifact_isObj ps rid iref pref
  have h2 : (artifact_to_json (build_artifact ps rid iref pref)).data.getLast? = some '}' := by
    rw [h]
    show (pyDumps 0 (Json.sortKeys (Json.obj fs))).data.getLast? = some '}'
    simp only [Json.sortKeys]
    exact pyDumps_obj_getLast _
  refine ⟨h2, ?_⟩
  rw [h2]
  rfl

/-- C4: a structurally valid CandidateSet with zero candidates is
rejected with NO_PROPOSALS, and one with two to eight candidates is
rejected with AMBIGUOUS_PROPOSALS, the recorded proposal_count equal to
the number of candidates. -/
theorem zero_and_multiple_proposals_reject
    (fs : List (String × Json)) (props : List Json) (rid iref pref : String)
    (hvalid : (validate_proposal_set (Json.obj fs)).1 = true)
    (hprops : jGet fs "proposals" = some (.arr props)) :
    (props.length = 0 →
      jfield (build_artifact (Json.obj fs) rid iref pref) "decision" = .str "REJECT" ∧
      jfield (jfield (build_artifact (Json.obj fs) rid iref pref) "reject_payload")
        "reason_code" = .str "NO_PROPOSALS") ∧
    (2 ≤ props.length → props.length ≤ 8 →
      jfield (build_artifact (Json.obj fs) rid iref pref) "decision" = .str "REJECT" ∧
      jfield (jfield (build_artifact (Json.obj fs) rid iref pref) "reject_payload")
        "reason_code" = .str "AMBIGUOUS_PROPOSALS" ∧
      jfield (jfield (build_artifact (Json.obj fs) rid iref pref) "construction")
        "proposal_count" = .int props.length) := by
  have hps : validate_proposal_set (Json.obj fs) = (true, (validate_proposal_set (Json.obj fs)).2) := by
    rw [← hvalid]
  have hsafe : validate_proposal_set_safe (Json.obj fs) = (true, (validate_proposal_set (Json.obj fs)).2) := hps
  constructor
  · intro h0
    have hone : build_artifact (Json.obj fs) rid iref pref =
        build_reject_artifact rid iref pref "NO_PROPOSALS" 0 [] := by
      unfold build_artifact
      rw [hsafe]
      dsimp only
      rw [hprops]
      dsimp only
      rw [h0]
      rfl
    rw [hone]
    exact ⟨rfl, rfl⟩
  · intro h2 _
    have hone : build_artifact (Json.obj fs) rid iref pref =
        build_reject_artifact rid iref pref "AMBIGUOUS_PROPOSALS" props.length []
          ["PROPOSAL_COUNT:" ++ toString props.length] := by
      unfold build_artifact
      rw [hsafe]
      dsimp only
      rw [hprops]
      dsimp only
      rw [if_neg (show ¬ props.length = 0 by omega),
        if_neg (show ¬ props.length = 1 by omega)]
      rfl
    rw [hone]
    exact ⟨rfl, rfl, rfl⟩

/-- Witness for C4 at the concrete zero-candidate and two-candidate
ProposalSets. -/
theorem zero_and_multiple_proposals_reject_witness :
    ((validate_proposal_set (Json.obj psZeroFields)).1 = true ∧
      jGet psZeroFields "proposals" = some (.arr []) ∧
      jfield (build_artifact (Json.obj psZeroFields) "r4" "i" "p") "decision" = .str "REJECT" ∧
      jfield (jfield (build_artifact (Json.obj psZeroFields) "r4" "i" "p") "reject_payload")
        "reason_code" = .str "NO_PROPOSALS") ∧
    ((validate_proposal_set (Json.obj psTwoFields)).1 = true ∧
      jfield (build_artifact (Json.obj psTwoFields) "r5" "i" "p") "decision" = .str "REJECT" ∧
      jfield (jfield (build_artifact (Json.obj psTwoFields) "r5" "i" "p") "reject_payload")
        "reason_code" = .str "AMBIGUOUS_PROPOSALS" ∧
      jfield (jfield (build_artifact (Json.obj psTwoFields) "r5" "i" "p") "construction")
        "proposal_count" = .int 2) := by
  have hz := (zero_and_multiple_proposals_reject psZeroFields [] "r4" "i" "p" rfl rfl).1 rfl
  have ht := (zero_and_multiple_proposals_reject psTwoFields
    (match jfield (Json.obj psTwoFields) "proposals" with | .arr l => l | _ => [])
    "r5" "i" "p" rfl rfl).2 (by decide) (by decide)
  exact ⟨⟨rfl, rfl, hz.1, hz.2⟩, ⟨rfl, ht.1, ht.2.1, ht.2.2⟩⟩

/-- C3 counterexample: the schema-valid candidate that extends the
envelope by `mode: graceful` is rejected with INVALID_PROPOSALS, but
the diagnostic note is "L3_ENVELOPE_MISMATCH", not the
"ENVELOPE_MISMATCH" the claim states. -/
theorem l3_envelope_note_counterexample :
    jfield (build_artifact (Json.obj psModeFields) "r1" "i" "p") "decision" = .str "REJECT" ∧
    jfield (jfield (build_artifact (Json.obj psModeFields) "r1" "i" "p") "reject_payload")
      "reason_code" = .str "INVALID_PROPOSALS" ∧
    Json.beq
      (jfield (jfield (build_artifact (Json.obj psModeFields) "r1" "i" "p") "reject_payload")
        "notes")
      (.arr [.str "ENVELOPE_MISMATCH"]) = false ∧
    jfield (jfield (build_artifact (Json.obj psModeFields) "r1" "i" "p") "reject_payload")
      "notes" = .arr [.str "L3_ENVELOPE_MISMATCH"] :=
  ⟨rfl, rfl, rfl, rfl⟩

/-- C3 (amended): in a structurally valid CandidateSet whose single
candidate equals the enumerated envelope exactly, the decision is
ACCEPT with the Route payload; with the schema-valid candidate that
adds one extra optional field (`mode: graceful`) the decision is
REJECT(INVALID_PROPOSALS) with note "L3_ENVELOPE_MISMATCH". -/
theorem l3_envelope_exact_accept_extra_field_reject
    (fs : List (String × Json)) (rid iref pref : String)
    (hvalid : (validate_proposal_set (Json.obj fs)).1 = true) :
    (jGet fs "proposals" = some (.arr [envelopeCandidate]) →
      jfield (build_artifact (Json.obj fs) rid iref pref) "decision" = .str "ACCEPT" ∧
      jfield (jfield (build_artifact (Json.obj fs) rid iref pref) "accept_payload") "kind" =
        .str "ROUTE" ∧
      jfield (jfield (build_artifact (Json.obj fs) rid iref pref) "accept_payload") "route" =
        .obj [("intent", .str "STATUS_QUERY"), ("target", .str "alpha")]) ∧
    (jGet fs "proposals" = some (.arr [modeCandidate]) →
      jfield (build_artifact (Json.obj fs) rid iref pref) "decision" = .str "REJECT" ∧
      jfield (jfield (build_artifact (Json.obj fs) rid iref pref) "reject_payload")
        "reason_code" = .str "INVALID_PROPOSALS" ∧
      jfield (jfield (build_artifact (Json.obj fs) rid iref pref) "reject_payload")
        "notes" = .arr [.str "L3_ENVELOPE_MISMATCH"]) := by
  have hsafe : validate_proposal_set_safe (Json.obj fs) =
      (true, (validate_proposal_set (Json.obj fs)).2) := by
    rw [← hvalid]
    rfl
  constructor
  · intro hprops
    have hone : build_artifact (Json.obj fs) rid iref pref =
        build_accept_artifact rid iref pref
          (.obj [("intent", .str "STATUS_QUERY"), ("target", .str "alpha")]) 0 1 := by
      unfold build_artifact
      rw [hsafe]
      dsimp only
      rw [hprops]
      rfl
    rw [hone]
    exact ⟨rfl, rfl, rfl⟩
  · intro hprops
    have hone : build_artifact (Json.obj fs) rid iref pref =
        build_reject_artifact rid iref pref "INVALID_PROPOSALS" 1 []
          ["L3_ENVELOPE_MISMATCH"] := by
      unfold build_artifact
      rw [hsafe]
      dsimp only
      rw [hprops]
      rfl
    rw [hone]
    exact ⟨rfl, rfl, rfl⟩

/-- Witness for C3 at the concrete envelope and mode-extended
ProposalSets. -/
theorem l3_envelope_exact_accept_extra_field_reject_witness :
    ((validate_proposal_set (Json.obj psEnvelopeFields)).1 = true ∧
      jfield (build_artifact (Json.obj psEnvelopeFields) "r1" "i" "p") "decision" =
        .str "ACCEPT" ∧
      jfield (jfield (build_artifact (Json.obj psEnvelopeFields) "r1" "i" "p")
        "accept_payload") "route" =
        .obj [("intent", .str "STATUS_QUERY"), ("target", .str "alpha")]) ∧
    ((validate_proposal_set (Json.obj psModeFields)).1 = true ∧
      jfield (build_artifact (Json.obj psModeFields) "r1" "i" "p") "decision" =
        .str "REJECT") := by
  have he := (l3_envelope_exact_accept_extra_field_reject psEnvelopeFields "r1" "i" "p" rfl).1 rfl
  have hm := (l3_envelope_exact_accept_extra_field_reject psModeFields "r1" "i" "p" rfl).2 rfl
  exact ⟨⟨rfl, he.1, he.2.2⟩, ⟨rfl, hm.1⟩⟩

/-- C1: the decision engine's ACCEPT record with a StateTransition
payload does NOT reach the synthesis path: `execute_if_accepted`
re-validates with the artifact validator, whose closed accept-kind set
is just ROUTE and which requires a `route` field, so the record fails
validation (ACCEPT_PAYLOAD_MISSING_ROUTE) and the gateway raises
ExecutionBoundaryViolation.  The synthesis function itself
(`_execute_state_transition`, unreachable through the gateway)
produces exactly the canonical record the claim describes: the five
`key=value` lines in fixed order, a fixed zero exit code, a fresh
`l4_run_<run_id>` directory, and no spawned process. -/
theorem l4_accept_record_raises_boundary_violation :
    jfield (build_artifact psL4Create "r2" "i" "p") "decision" = .str "ACCEPT" ∧
    jfield (jfield (build_artifact psL4Create "r2" "i" "p") "accept_payload") "kind" =
      .str "STATE_TRANSITION" ∧
    execute_if_accepted "root" (build_artifact psL4Create "r2" "i" "p") true =
      .boundary_violation ["ACCEPT_PAYLOAD_MISSING_ROUTE"] ∧
    execute_state_transition "root" (build_artifact psL4Create "r2" "i" "p") =
      { run_dir_name := "l4_run_r2",
        files :=
          [("stdout.raw.kv",
            "order_id=demo-order-1\nprevious_state=CREATED\nevent=create_payment\ncurrent_state=PAYMENT_PENDING\nterminal=false\n"),
           ("exit_code.txt", "0\n"),
           ("stderr.raw.txt", ""),
           ("execution.meta.json",
            "\x7b\n  \"execution_attempted\": true,\n  \"execution_kind\": \"STATE_TRANSITION\",\n  \"exit_code\": 0,\n  \"notes\": \"L-4 state transition execution\",\n  \"run_dir\": \"root/artifacts/run/l4_run_r2\",\n  \"stderr_path\": \"stderr.raw.txt\",\n  \"stdout_path\": \"stdout.raw.kv\",\n  \"verification_passed\": true\n\x7d")],
        exit_code := 0 } := by
  refine ⟨rfl, rfl, rfl, ?_⟩
  rfl

/-- C2: the decision engine's own L-4 REJECT record (reason code
ILLEGAL_TRANSITION, outside the artifact validator's closed reason-code
set) makes `execute_if_accepted` raise ExecutionBoundaryViolation
instead of returning the executed=false ExecutionResult; a REJECT
record whose reason code the validator knows (NO_PROPOSALS) does take
the no-op path, with no write and no backend invocation. -/
theorem l4_reject_record_raises_boundary_violation :
    jfield (build_artifact psL4Illegal "r3" "i" "p") "decision" = .str "REJECT" ∧
    jfield (jfield (build_artifact psL4Illegal "r3" "i" "p") "reject_payload")
      "reason_code" = .str "ILLEGAL_TRANSITION" ∧
    execute_if_accepted "root" (build_artifact psL4Illegal "r3" "i" "p") true =
      .boundary_violation ["REJECT_PAYLOAD_INVALID_REASON_CODE:ILLEGAL_TRANSITION"] ∧
    execute_if_accepted "root" (build_artifact (Json.obj psZeroFields) "r4" "i" "p") true =
      .rejected_no_op :=
  ⟨rfl, rfl, rfl, rfl⟩

/-- C8: the proposal-acquisition seam is a consumable exactly-once
capability: called with a fresh RunContext it succeeds and returns the
consumed context, and any call with the consumed context raises
SeamSViolation (never a silent no-op). -/
theorem seam_acquire_exactly_once
    (engine : Option (List Nat → EngineOutcome)) (raw : List Nat)
    (ctx : RunContext) (hfresh : ctx.seam_s_called = false) :
    (∃ bs, acquire_proposal_set engine raw (some ctx) =
      .ok (bs, some { seam_s_called := true })) ∧
    ∀ (engine2 : Option (List Nat → EngineOutcome)) (raw2 : List Nat),
      acquire_proposal_set engine2 raw2 (some { seam_s_called := true }) =
        .error (.seamSViolation
          "Seam S may be called exactly once per run. Second invocation detected.") := by
  constructor
  · refine ⟨runBoundEngine engine raw, ?_⟩
    unfold acquire_proposal_set RunContext.mark_seam_s_called
    dsimp only
    rw [hfresh]
    rfl
  · intro engine2 raw2
    rfl

/-- Witness for C8: a fresh context, no bound engine, empty input. -/
theorem seam_acquire_exactly_once_witness :
    (RunContext.mk false).seam_s_called = false ∧
    ((∃ bs, acquire_proposal_set none [] (some (RunContext.mk false)) =
      .ok (bs, some { seam_s_called := true })) ∧
    ∀ (engine2 : Option (List Nat → EngineOutcome)) (raw2 : List Nat),
      acquire_proposal_set engine2 raw2 (some { seam_s_called := true }) =
        .error (.seamSViolation
          "Seam S may be called exactly once per run. Second invocation detected.")) :=
  ⟨rfl, seam_acquire_exactly_once none [] (RunContext.mk false) rfl⟩

/-- C9: whenever the delta between the before and after snapshots holds
two or more newly created directories that each contain the
execution-truth file stdout.raw.kv, the locator reports AMBIGUOUS with
no path selected, whatever the file contents, the hash function, or
the externally recorded hash. -/
theorem locator_multiple_candidates_ambiguous
    (hashFn : String → Nat) (known_hash : Option Nat)
    (before : List String) (run_root : List RunDir)
    (h2 : 2 ≤ (find_authoritative_dirs
      (compute_delta before (snapshot_run_dirs run_root)) run_root).length) :
    locate_run hashFn known_hash before run_root = .ambiguous := by
  unfold locate_run
  dsimp only
  rcases hc : find_authoritative_dirs
      (compute_delta before (snapshot_run_dirs run_root)) run_root with _ | ⟨c, _ | ⟨d, rest⟩⟩
  · rw [hc] at h2
    simp at h2
  · rw [hc] at h2
    simp at h2
  · rfl

/-- Witness for C9: empty before-snapshot, two identical authoritative
directories in the delta. -/
theorem locator_multiple_candidates_ambiguous_witness :
    2 ≤ (find_authoritative_dirs
      (compute_delta [] (snapshot_run_dirs twoAuthDirs)) twoAuthDirs).length ∧
    locate_run String.length none [] twoAuthDirs = .ambiguous :=
  ⟨by decide, locator_multiple_candidates_ambiguous String.length none [] twoAuthDirs (by decide)⟩

end BrokClu
